import Mathlib

/-!
Shallow embedding of the OAuth-linkage reconciliation logic of the Noted
browser extension popup (`NotedPopup`, src/unnamed/part_003; the vercel
variant in part_004 differs only in details noted inline).

Correspondence with the design documents' data model:
* `LinkIdentity.localId` / `remoteId` — the popup keeps a single field
  `this.userId` (here `PopupState.userId`) holding either a locally
  generated 16-character placeholder or a backend-issued id; the durable
  `chrome.storage.sync` key `userId` (here `Storage.userId`) is only ever
  set to backend-issued ids, so it plays the role of the persisted
  `remoteId`.
* `LinkIdentity.confirmed` — the status element carrying CSS class
  `connected` (set by `showConnectedState` after a `connected: true`
  response), here `UIState.statusClass = .connected`.
* the validated credential flag — storage keys `openaiApiKey` /
  `openaiKeyValid`.
Remote responses (`GET /user/{id}/status`, `GET /oauth/check-completion`,
the background OAuth completion record) are modelled as an explicit
environment `Env`; "remote responses are stable" means the same `Env`
value is used across calls.
-/

/-- CSS class of the status element: `'status connected'` or
`'status disconnected'` (the only two values the popup assigns). -/
inductive StatusClass where
  | connected
  | disconnected
deriving DecidableEq, Repr, BEq

/-- The durable `chrome.storage.sync` keys the reconciliation logic touches:
`userId`, `openaiApiKey`, `openaiKeyValid` (`none` / `false` = key absent). -/
structure Storage where
  userId : Option String
  openaiApiKey : Option String
  openaiKeyValid : Bool
deriving DecidableEq, Repr

/-- UI affordances the popup mutates: status element class and
`data-was-connected` attribute, summarize button enablement, the
Connect-to-Notion button (enabled flag plus `connected` / `connecting`
CSS classes), and the Save-Settings button visibility. -/
structure UIState where
  statusClass : StatusClass
  wasConnected : Bool
  summarizeEnabled : Bool
  btnEnabled : Bool
  btnConnected : Bool
  btnConnecting : Bool
  saveSettingsVisible : Bool
deriving DecidableEq, Repr

/-- In-memory popup state: `this.userId`, `this.backendConnected`, the
durable storage and the UI. -/
structure PopupState where
  userId : Option String
  backendConnected : Bool
  storage : Storage
  ui : UIState
deriving DecidableEq, Repr

/-- Outcome of `fetch(backendUrl/user/{id}/status)`:
network error (fetch throws), non-success HTTP status (`!response.ok`),
or a JSON body `{connected, reason?, action?, workspace_name?}`. -/
inductive StatusResponse where
  | netFailure
  | httpError
  | ok (connected : Bool) (reason : Option String) (action : Option String)
       (workspaceName : Option String)
deriving DecidableEq, Repr

/-- Outcome of `fetch(backendUrl/oauth/check-completion)`:
network error, non-success HTTP status, or `{has_users, latest_user_id?}`. -/
inductive CompletionResponse where
  | netFailure
  | httpError
  | ok (hasUsers : Bool) (latestUserId : Option String)
deriving DecidableEq, Repr

/-- The remote world as seen by the popup during a reconciliation pass:
per-id status responses, the discovery endpoint's answer, the background
script's OAuth completion record (`some uid` iff
`completionData.status === 'success'` with that user id), and the bytes of
`canvas.toDataURL() + extensionId` used to derive the local placeholder id.
Using one fixed `Env` across successive calls models "no remote-side
change between them". -/
structure Env where
  status : String → StatusResponse
  completion : CompletionResponse
  oauthBackground : Option String
  fingerprint : List Nat

/-- The standard base64 alphabet used by `btoa`. -/
def base64Alphabet : List Char :=
  "ABCDEFGHIJKLMNOPQRSTUVWXYZabcdefghijklmnopqrstuvwxyz0123456789+/".toList

/-- Character for a 6-bit group. -/
def b64Char (n : Nat) : Char := base64Alphabet.getD n 'A'

/-- `btoa` on a byte list: 3 input bytes become 4 output characters,
with `=` padding for a 1- or 2-byte tail. -/
def btoaBytes : List Nat → List Char
  | [] => []
  | [a] => [b64Char (a / 4), b64Char (a % 4 * 16), '=', '=']
  | [a, b] => [b64Char (a / 4), b64Char (a % 4 * 16 + b / 16), b64Char (b % 16 * 4), '=']
  | a :: b :: c :: rest =>
      b64Char (a / 4) :: b64Char (a % 4 * 16 + b / 16) ::
      b64Char (b % 16 * 4 + c / 64) :: b64Char (c % 64) :: btoaBytes rest

/-- `loadStoredUserId`, generation branch (part_003 lines 395-406):
`btoa(fingerprint + extensionId).substring(0, 16)` — the temporary local
placeholder id, derived from the bytes of the canvas fingerprint data-URL
concatenated with the extension id. -/
def genTempId (fingerprint : List Nat) : String :=
  String.mk ((btoaBytes fingerprint).take 16)

/-- `init` (part_003 line 48): a stored user id is taken as a candidate
remote identity worth verifying iff it is truthy and longer than 20
characters. -/
def storedIdTriggersVerification : Option String → Bool
  | none => false
  | some u => !(u == "") && decide (u.length > 20)

/-- `init` (part_003 line 85): the user is forced into the disconnected
(must-authenticate) state iff `this.userId` is falsy or shorter than 30
characters. -/
def needsForcedAuth : Option String → Bool
  | none => true
  | some u => (u == "") || decide (u.length < 30)

/-- JS `String.prototype.trim`: strip whitespace from both ends. -/
def jsTrim (s : String) : String :=
  String.mk (((s.toList.dropWhile Char.isWhitespace).reverse.dropWhile
    Char.isWhitespace).reverse)

/-- JS truthiness plus validity of the stored OpenAI credential, as read by
`updateUIState` (part_003 lines 1572-1575):
`savedOpenaiKey && savedOpenaiKey.trim() && isOpenaiKeyValid`. -/
def hasValidOpenaiKey (st : Storage) : Bool :=
  match st.openaiApiKey with
  | none => false
  | some k => !(k == "") && !(jsTrim k == "") && st.openaiKeyValid

/-- The literal `className` string carried by the status element. -/
def classNameStr : StatusClass → String
  | .connected => "status connected"
  | .disconnected => "status disconnected"

/-- JS `String.prototype.includes`: does `needle` occur as a contiguous
substring of `hay`? -/
def strIncludes (hay needle : String) : Bool :=
  let h := hay.toList
  let n := needle.toList
  (List.range (h.length + 1)).any (fun i => (h.drop i).take n.length == n)

/-- JS truthiness of `savedOpenaiKey && savedOpenaiKey.trim()`: a stored
key that is non-empty and non-blank after trimming. -/
def hasTruthyKey (st : Storage) : Bool :=
  match st.openaiApiKey with
  | none => false
  | some k => !(k == "") && !(jsTrim k == "")

/-- `updateSaveSettingsVisibility` (part_003 lines 1530-1557): hides the
Save-Settings button only when a saved, validated OpenAI key exists and
`statusElement.className.includes('connected')` — note the `includes`
check also matches the substring inside `'status disconnected'`. -/
def updateSaveSettingsVisibility (s : PopupState) : PopupState :=
  let isConnectedToNotion := strIncludes (classNameStr s.ui.statusClass) "connected"
  let hidden := hasTruthyKey s.storage && s.storage.openaiKeyValid && isConnectedToNotion
  { s with ui := { s.ui with saveSettingsVisible := !hidden } }

/-- `updateUIState` (part_003 lines 1559-1617): the Status Projector.
Derives the summarize-button enablement and the Connect-to-Notion button
state from `backendConnected`, the status element's class list
(`classList.contains('connected')`, an exact token check), and the stored
OpenAI credential; then updates the Save-Settings visibility. -/
def updateUIState (s : PopupState) : PopupState :=
  let hasConnectedClass := s.ui.statusClass == .connected
  let isConnectedToNotion := s.backendConnected && hasConnectedClass
  let hasValidKey := hasValidOpenaiKey s.storage
  let ui1 := { s.ui with
    summarizeEnabled := s.backendConnected && isConnectedToNotion && hasValidKey }
  let ui2 :=
    if isConnectedToNotion then
      { ui1 with btnEnabled := false, btnConnected := true, btnConnecting := false }
    else if !ui1.btnConnecting then
      { ui1 with btnEnabled := true, btnConnected := false, btnConnecting := false }
    else ui1
  updateSaveSettingsVisibility { s with ui := ui2 }

/-- `clearStoredSettings` (part_003 lines 750-765): removes `openaiApiKey`
and `openaiKeyValid` from storage (and empties the key input field). -/
def clearStoredSettings (s : PopupState) : PopupState :=
  { s with storage := { s.storage with openaiApiKey := none, openaiKeyValid := false } }

/-- `clearExtensionStorage` (part_003 lines 767-786): removes `userId`,
`openaiApiKey`, `openaiKeyValid` (and local cache keys) and nulls the
in-memory user id. -/
def clearExtensionStorage (s : PopupState) : PopupState :=
  { s with
    userId := none
    storage := { userId := none, openaiApiKey := none, openaiKeyValid := false } }

/-- `showDisconnectedState` (part_003 lines 697-716): sets the status
element to `'status disconnected'` with `data-was-connected = 'false'`,
re-derives the UI, then clears the stored OpenAI credential. -/
def showDisconnectedState (s : PopupState) : PopupState :=
  clearStoredSettings
    (updateUIState
      { s with ui := { s.ui with statusClass := .disconnected, wasConnected := false } })

/-- `showConnectedState` (part_003 lines 670-695): sets the status element
to `'status connected'`, re-derives the UI, and marks
`data-was-connected = 'true'` (after showing a success message when this
is a new connection). -/
def showConnectedState (s : PopupState) : PopupState :=
  let s1 := updateUIState { s with ui := { s.ui with statusClass := .connected } }
  if s1.ui.wasConnected then s1
  else { s1 with ui := { s1.ui with wasConnected := true } }

/-- `generateUserId` / `loadStoredUserId` (part_003 lines 358-411): adopt
the stored user id when one exists, otherwise derive the deterministic
16-character temporary placeholder from the installation fingerprint. -/
def generateUserId (fingerprint : List Nat) (s : PopupState) : PopupState :=
  match s.storage.userId with
  | some u => { s with userId := some u }
  | none => { s with userId := some (genTempId fingerprint) }

/-- `forceDisconnectedState` (part_003 lines 718-748): removes the stored
user id, regenerates a temporary local id, forces the disconnected UI,
resets the Connect button, clears the stored credential and re-derives the
UI. -/
def forceDisconnectedState (fingerprint : List Nat) (s : PopupState) : PopupState :=
  let s1 := { s with storage := { s.storage with userId := none }, userId := none }
  let s2 := generateUserId fingerprint s1
  let s3 := { s2 with ui := { s2.ui with
    statusClass := .disconnected, wasConnected := false,
    btnEnabled := true, btnConnected := false, btnConnecting := false } }
  updateUIState (clearStoredSettings s3)

/-- `setNotionUserId` (part_003 lines 413-417): adopts a backend-issued id
both in memory and in durable storage. -/
def setNotionUserId (s : PopupState) (notionUserId : String) : PopupState :=
  { s with
    userId := some notionUserId
    storage := { s.storage with userId := some notionUserId } }

/-- `checkNotionConnection` (part_003 lines 582-637): the
connection-check / reconcile pass against `GET /user/{id}/status`.
* no (or falsy) user id: `showDisconnectedState`;
* fetch throws (network error): caught, `showDisconnectedState`;
* non-success HTTP status: `forceDisconnectedState`, then the re-thrown
  error is caught and `showDisconnectedState` also runs;
* `connected` not `true`: clear the stored id and regenerate a local
  placeholder when `reason` is `invalid_token` or `no_token`, honour an
  `action: 'clear_extension_storage'` directive, then
  `showDisconnectedState`;
* `connected: true`: `showConnectedState`. -/
def checkNotionConnection (env : Env) (s : PopupState) : PopupState :=
  match s.userId with
  | none => showDisconnectedState s
  | some u =>
    if u == "" then showDisconnectedState s
    else
      match env.status u with
      | .netFailure => showDisconnectedState s
      | .httpError => showDisconnectedState (forceDisconnectedState env.fingerprint s)
      | .ok connected reason action _workspaceName =>
        if connected then showConnectedState s
        else
          let s1 :=
            if reason == some "invalid_token" || reason == some "no_token" then
              generateUserId env.fingerprint
                { s with storage := { s.storage with userId := none }, userId := none }
            else s
          let s2 :=
            if action == some "clear_extension_storage" then clearExtensionStorage s1
            else s1
          showDisconnectedState s2

/-- `detectRealUser` (part_003 lines 241-276): the discovery probe.
Queries `GET /oauth/check-completion`; when it reports a (truthy) latest
user id, verifies that candidate with `GET /user/{id}/status` and, if
`connected`, persists it via `setNotionUserId` and reports success. All
failures leave the state unchanged and report `false`. -/
def detectRealUser (env : Env) (s : PopupState) : Bool × PopupState :=
  match env.completion with
  | .ok hasUsers (some latest) =>
    if hasUsers && !(latest == "") then
      match env.status latest with
      | .ok true _ _ _ => (true, setNotionUserId s latest)
      | _ => (false, s)
    else (false, s)
  | _ => (false, s)

/-- The state transformer of `detectRealUser` (its effect on the popup
state, discarding the returned boolean). -/
def detectRealUserS (env : Env) (s : PopupState) : PopupState :=
  (detectRealUser env s).2

/-- `checkOAuthCompletion` (part_003 lines 202-233): asks the background
script for its OAuth status; on a recorded successful completion adopts
the completed user id (a deferred `checkNotionConnection` is additionally
scheduled via `setTimeout`, outside this call). Errors and incomplete
states leave the popup unchanged. -/
def checkOAuthCompletion (env : Env) (s : PopupState) : Bool × PopupState :=
  match env.oauthBackground with
  | some uid => (true, setNotionUserId s uid)
  | none => (false, s)

/-- Marks the Connect button connected (disabled, class `connected`,
class `connecting` removed) — the inline button update performed by the
polling loop when a connection is observed. -/
def markConnectButton (s : PopupState) : PopupState :=
  { s with ui := { s.ui with btnEnabled := false, btnConnected := true, btnConnecting := false } }

/-- Resets the Connect button (enabled, classes `connected` and
`connecting` removed) — the polling loop's timeout cleanup. -/
def resetConnectButton (s : PopupState) : PopupState :=
  { s with ui := { s.ui with btnEnabled := true, btnConnected := false, btnConnecting := false } }

/-- One tick of `startOAuthCompletionPolling` (part_003 lines 944-1012),
minus the attempt bookkeeping: run `detectRealUser`; on success mark the
button and run `checkNotionConnection`, stopping the loop. Otherwise run
`checkOAuthCompletion` (its boolean result is unused in this variant) and
fall back to probing the current user id's status, stopping likewise when
it reports `connected`. The boolean is `true` when the tick cleared the
interval. -/
def pollTick (env : Env) (s : PopupState) : Bool × PopupState :=
  match detectRealUser env s with
  | (true, s1) => (true, checkNotionConnection env (markConnectButton s1))
  | (false, s1) =>
    let s2 := (checkOAuthCompletion env s1).2
    match s2.userId with
    | some u =>
      if u == "" then (false, s2)
      else
        match env.status u with
        | .ok true _ _ _ => (true, checkNotionConnection env (markConnectButton s2))
        | _ => (false, s2)
    | none => (false, s2)

/-- Terminal status of one polling session. -/
inductive SessionStatus where
  | confirmedLink
  | timedOut
deriving DecidableEq, Repr

/-- The polling loop of `startOAuthCompletionPolling` from a given attempt
count: each tick increments `attempts`; a tick that observes a connection
ends the session as `confirmedLink`; otherwise once
`attempts >= maxAttempts` the interval is cleared, the Connect button is
reset and the session ends as `timedOut`. Returns the terminal status, the
final popup state and the number of ticks executed. part_003 instantiates
`maxAttempts = 15` (part_004: 20). -/
def pollFrom (env : Env) (maxAttempts : Nat) (s : PopupState) (attempts : Nat) :
    SessionStatus × PopupState × Nat :=
  match pollTick env s with
  | (true, s1) => (.confirmedLink, s1, attempts + 1)
  | (false, s1) =>
    if attempts + 1 ≥ maxAttempts then (.timedOut, resetConnectButton s1, attempts + 1)
    else pollFrom env maxAttempts s1 (attempts + 1)
termination_by maxAttempts - attempts
decreasing_by omega

/-- `startOAuthCompletionPolling` (part_003 lines 937-1014) as a whole:
the polling session started with a fresh attempt counter. -/
def startOAuthCompletionPolling (env : Env) (maxAttempts : Nat) (s : PopupState) :
    SessionStatus × PopupState × Nat :=
  pollFrom env maxAttempts s 0

/-- Does a status response report an established link
(`response.ok` with `connected: true`)? -/
def statusOkConnected : StatusResponse → Bool
  | .ok true _ _ _ => true
  | _ => false

/-- Output length of the base64 encoder: 4 characters per 3-byte group,
the tail group padded to 4. -/
theorem btoaBytes_length : ∀ l : List Nat, (btoaBytes l).length = 4 * ((l.length + 2) / 3)
  | [] => by simp [btoaBytes]
  | [a] => by simp [btoaBytes]
  | [a, b] => by simp [btoaBytes]
  | a :: b :: c :: rest => by
      simp only [btoaBytes, List.length_cons, List.length_append,
        btoaBytes_length rest]
      omega

/-- C9: a freshly generated local placeholder id is exactly 16 characters
long (for any fingerprint of at least 10 bytes — `canvas.toDataURL()`
alone contributes the 22-character prefix `data:image/png;base64,`), hence
it never passes the stored-identity recognition threshold (`length > 20`)
and always trips the forced-authentication threshold (`length < 30`): a
freshly generated local id is never treated as an authenticated remote
identity. -/
theorem genTempId_never_recognized (fingerprint : List Nat)
    (h : 10 ≤ fingerprint.length) :
    (genTempId fingerprint).length = 16 ∧
    storedIdTriggersVerification (some (genTempId fingerprint)) = false ∧
    needsForcedAuth (some (genTempId fingerprint)) = true := by
  have hlen : (genTempId fingerprint).length = 16 := by
    simp only [genTempId, String.length_mk, List.length_take, btoaBytes_length]
    omega
  refine ⟨hlen, ?_, ?_⟩
  · simp only [storedIdTriggersVerification, hlen]
    simp
  · simp only [needsForcedAuth, hlen]
    simp

/-- Witness for C9 at a concrete 22-byte fingerprint. -/
theorem genTempId_never_recognized_witness :
    10 ≤ (List.replicate 22 100).length ∧
    ((genTempId (List.replicate 22 100)).length = 16 ∧
     storedIdTriggersVerification (some (genTempId (List.replicate 22 100))) = false ∧
     needsForcedAuth (some (genTempId (List.replicate 22 100))) = true) :=
  ⟨by decide, genTempId_never_recognized (List.replicate 22 100) (by decide)⟩

/-! ### Frame lemmas for the individual transitions -/

theorem updateSaveSettingsVisibility_frame (s : PopupState) :
    (updateSaveSettingsVisibility s).storage = s.storage ∧
    (updateSaveSettingsVisibility s).userId = s.userId ∧
    (updateSaveSettingsVisibility s).backendConnected = s.backendConnected ∧
    (updateSaveSettingsVisibility s).ui.statusClass = s.ui.statusClass ∧
    (updateSaveSettingsVisibility s).ui.wasConnected = s.ui.wasConnected ∧
    (updateSaveSettingsVisibility s).ui.summarizeEnabled = s.ui.summarizeEnabled ∧
    (updateSaveSettingsVisibility s).ui.btnEnabled = s.ui.btnEnabled ∧
    (updateSaveSettingsVisibility s).ui.btnConnected = s.ui.btnConnected ∧
    (updateSaveSettingsVisibility s).ui.btnConnecting = s.ui.btnConnecting := by
  simp [updateSaveSettingsVisibility]

@[simp] theorem updateUIState_storage (s : PopupState) :
    (updateUIState s).storage = s.storage := by
  simp only [updateUIState, updateSaveSettingsVisibility]

@[simp] theorem updateUIState_userId (s : PopupState) :
    (updateUIState s).userId = s.userId := by
  simp only [updateUIState, updateSaveSettingsVisibility]

@[simp] theorem updateUIState_backendConnected (s : PopupState) :
    (updateUIState s).backendConnected = s.backendConnected := by
  simp only [updateUIState, updateSaveSettingsVisibility]

@[simp] theorem updateUIState_statusClass (s : PopupState) :
    (updateUIState s).ui.statusClass = s.ui.statusClass := by
  simp only [updateUIState, updateSaveSettingsVisibility]
  split
  · simp
  · split <;> simp

@[simp] theorem updateUIState_wasConnected (s : PopupState) :
    (updateUIState s).ui.wasConnected = s.ui.wasConnected := by
  simp only [updateUIState, updateSaveSettingsVisibility]
  split
  · simp
  · split <;> simp

@[simp] theorem updateUIState_summarizeEnabled (s : PopupState) :
    (updateUIState s).ui.summarizeEnabled =
      (s.backendConnected && (s.backendConnected && (s.ui.statusClass == .connected)) &&
        hasValidOpenaiKey s.storage) := by
  simp only [updateUIState, updateSaveSettingsVisibility]
  split
  · simp
  · split <;> simp

@[simp] theorem clearStoredSettings_userId (s : PopupState) :
    (clearStoredSettings s).userId = s.userId := rfl

@[simp] theorem clearStoredSettings_storage_userId (s : PopupState) :
    (clearStoredSettings s).storage.userId = s.storage.userId := rfl

@[simp] theorem clearStoredSettings_key (s : PopupState) :
    (clearStoredSettings s).storage.openaiApiKey = none := rfl

@[simp] theorem clearStoredSettings_valid (s : PopupState) :
    (clearStoredSettings s).storage.openaiKeyValid = false := rfl

@[simp] theorem clearStoredSettings_ui (s : PopupState) :
    (clearStoredSettings s).ui = s.ui := rfl

@[simp] theorem showDisconnectedState_userId (s : PopupState) :
    (showDisconnectedState s).userId = s.userId := by
  simp [showDisconnectedState]

@[simp] theorem showDisconnectedState_storage_userId (s : PopupState) :
    (showDisconnectedState s).storage.userId = s.storage.userId := by
  simp [showDisconnectedState]

@[simp] theorem showDisconnectedState_key (s : PopupState) :
    (showDisconnectedState s).storage.openaiApiKey = none := by
  simp [showDisconnectedState]

@[simp] theorem showDisconnectedState_valid (s : PopupState) :
    (showDisconnectedState s).storage.openaiKeyValid = false := by
  simp [showDisconnectedState]

@[simp] theorem showDisconnectedState_statusClass (s : PopupState) :
    (showDisconnectedState s).ui.statusClass = .disconnected := by
  simp [showDisconnectedState]

@[simp] theorem showDisconnectedState_wasConnected (s : PopupState) :
    (showDisconnectedState s).ui.wasConnected = false := by
  simp [showDisconnectedState]

@[simp] theorem showConnectedState_userId (s : PopupState) :
    (showConnectedState s).userId = s.userId := by
  simp only [showConnectedState]
  split <;> simp

@[simp] theorem showConnectedState_storage (s : PopupState) :
    (showConnectedState s).storage = s.storage := by
  simp only [showConnectedState]
  split <;> simp

@[simp] theorem showConnectedState_statusClass (s : PopupState) :
    (showConnectedState s).ui.statusClass = .connected := by
  simp only [showConnectedState]
  split <;> simp

@[simp] theorem generateUserId_fresh (fingerprint : List Nat) (s : PopupState)
    (h : s.storage.userId = none) :
    generateUserId fingerprint s = { s with userId := some (genTempId fingerprint) } := by
  simp [generateUserId, h]

@[simp] theorem forceDisconnectedState_userId (fingerprint : List Nat) (s : PopupState) :
    (forceDisconnectedState fingerprint s).userId = some (genTempId fingerprint) := by
  simp [forceDisconnectedState, generateUserId]

@[simp] theorem forceDisconnectedState_storage_userId (fingerprint : List Nat) (s : PopupState) :
    (forceDisconnectedState fingerprint s).storage.userId = none := by
  simp [forceDisconnectedState, generateUserId]

@[simp] theorem forceDisconnectedState_key (fingerprint : List Nat) (s : PopupState) :
    (forceDisconnectedState fingerprint s).storage.openaiApiKey = none := by
  simp [forceDisconnectedState, generateUserId]

@[simp] theorem forceDisconnectedState_valid (fingerprint : List Nat) (s : PopupState) :
    (forceDisconnectedState fingerprint s).storage.openaiKeyValid = false := by
  simp [forceDisconnectedState, generateUserId]

@[simp] theorem forceDisconnectedState_statusClass (fingerprint : List Nat) (s : PopupState) :
    (forceDisconnectedState fingerprint s).ui.statusClass = .disconnected := by
  simp [forceDisconnectedState, generateUserId]

@[simp] theorem updateUIState_btnEnabled (s : PopupState) :
    (updateUIState s).ui.btnEnabled =
      (if s.backendConnected && (s.ui.statusClass == .connected) then false
       else if !s.ui.btnConnecting then true else s.ui.btnEnabled) := by
  simp only [updateUIState, updateSaveSettingsVisibility]
  split
  · simp_all
  · split <;> simp_all

@[simp] theorem updateUIState_btnConnected (s : PopupState) :
    (updateUIState s).ui.btnConnected =
      (if s.backendConnected && (s.ui.statusClass == .connected) then true
       else if !s.ui.btnConnecting then false else s.ui.btnConnected) := by
  simp only [updateUIState, updateSaveSettingsVisibility]
  split
  · simp_all
  · split <;> simp_all

@[simp] theorem updateUIState_btnConnecting (s : PopupState) :
    (updateUIState s).ui.btnConnecting =
      (!(s.backendConnected && (s.ui.statusClass == .connected)) && s.ui.btnConnecting) := by
  simp only [updateUIState, updateSaveSettingsVisibility]
  split
  · simp_all
  · split <;> cases hb : s.backendConnected <;> simp_all

@[simp] theorem updateUIState_saveSettingsVisible (s : PopupState) :
    (updateUIState s).ui.saveSettingsVisible =
      !(hasTruthyKey s.storage && s.storage.openaiKeyValid &&
        strIncludes (classNameStr s.ui.statusClass) "connected") := by
  simp only [updateUIState, updateSaveSettingsVisibility]
  split
  · simp_all
  · split <;> simp_all

/-! ### Claim theorems -/

/-- C10: every transition to the disconnected state also clears the
independently-stored summarization credential — both
`showDisconnectedState` and `forceDisconnectedState` invoke
`clearStoredSettings`, so afterwards `openaiApiKey` is gone from durable
storage and the credential-valid flag is down. -/
theorem disconnect_clears_credential (s : PopupState) (fingerprint : List Nat) :
    (showDisconnectedState s).storage.openaiApiKey = none ∧
    (showDisconnectedState s).storage.openaiKeyValid = false ∧
    (forceDisconnectedState fingerprint s).storage.openaiApiKey = none ∧
    (forceDisconnectedState fingerprint s).storage.openaiKeyValid = false := by
  simp

/-- A confirmed, fully configured popup state: backend reachable, status
element marked connected, stored backend id `"R"`, validated OpenAI key. -/
def sConfirmed : PopupState :=
  { userId := some "R"
    backendConnected := true
    storage := { userId := some "R", openaiApiKey := some "sk-test", openaiKeyValid := true }
    ui := { statusClass := .connected, wasConnected := true, summarizeEnabled := true,
            btnEnabled := false, btnConnected := true, btnConnecting := false,
            saveSettingsVisible := false } }

/-- The same confirmed state, but with the backend currently unreachable
(`this.backendConnected = false`, as the 5-second background probe sets it
when the backend is down, without touching the status element). -/
def sBackendDown : PopupState :=
  { sConfirmed with backendConnected := false }

/-- C6 counterexample: with the identity confirmed (`status connected`
class) and the credential valid, but the backend flagged unreachable, the
projected summarize enablement is `false` — refuting
`canAct = identity.confirmed && credentialValid`. -/
theorem canAct_counterexample :
    ((sBackendDown.ui.statusClass == .connected) && hasValidOpenaiKey sBackendDown.storage) = true ∧
    (updateUIState sBackendDown).ui.summarizeEnabled = false := by
  exact ⟨by decide, by decide⟩

/-- C6 (amended): the projected enablement of the summarize action is
`canAct = backendConnected && identity.confirmed && credentialValid`,
where the credential is valid iff the stored key is truthy (non-empty,
non-blank after trimming) and the validated flag is set. -/
theorem canAct_characterization (s : PopupState) :
    (updateUIState s).ui.summarizeEnabled =
      (s.backendConnected && (s.ui.statusClass == .connected) &&
        hasValidOpenaiKey s.storage) := by
  rw [updateUIState_summarizeEnabled]
  cases s.backendConnected <;> simp

/-- C7: projector purity and determinism. Two invocations of
`updateUIState` on states that agree on every input the projection reads
(backend reachability, status-element class, the Connect button's current
classes and enablement, the stored credential) produce identical outputs
on every field the projection writes; and an invocation has no effect on
the durable store, the identity, or the connection-status state — the
projection is a deterministic function of its inputs with no side effects
beyond the projected UI fields. -/
theorem updateUIState_pure (s₁ s₂ : PopupState)
    (hb : s₁.backendConnected = s₂.backendConnected)
    (hc : s₁.ui.statusClass = s₂.ui.statusClass)
    (hg : s₁.ui.btnConnecting = s₂.ui.btnConnecting)
    (hbe : s₁.ui.btnEnabled = s₂.ui.btnEnabled)
    (hbc : s₁.ui.btnConnected = s₂.ui.btnConnected)
    (hk : s₁.storage.openaiApiKey = s₂.storage.openaiApiKey)
    (hv : s₁.storage.openaiKeyValid = s₂.storage.openaiKeyValid) :
    ((updateUIState s₁).ui.summarizeEnabled = (updateUIState s₂).ui.summarizeEnabled ∧
     (updateUIState s₁).ui.btnEnabled = (updateUIState s₂).ui.btnEnabled ∧
     (updateUIState s₁).ui.btnConnected = (updateUIState s₂).ui.btnConnected ∧
     (updateUIState s₁).ui.btnConnecting = (updateUIState s₂).ui.btnConnecting ∧
     (updateUIState s₁).ui.saveSettingsVisible = (updateUIState s₂).ui.saveSettingsVisible) ∧
    ((updateUIState s₁).storage = s₁.storage ∧
     (updateUIState s₁).userId = s₁.userId ∧
     (updateUIState s₁).backendConnected = s₁.backendConnected ∧
     (updateUIState s₁).ui.statusClass = s₁.ui.statusClass ∧
     (updateUIState s₁).ui.wasConnected = s₁.ui.wasConnected) := by
  have hkey : hasValidOpenaiKey s₁.storage = hasValidOpenaiKey s₂.storage := by
    unfold hasValidOpenaiKey
    rw [hk, hv]
  have htr : hasTruthyKey s₁.storage = hasTruthyKey s₂.storage := by
    unfold hasTruthyKey
    rw [hk]
  refine ⟨⟨?_, ?_, ?_, ?_, ?_⟩, ?_, ?_, ?_, ?_, ?_⟩ <;>
    simp [hb, hc, hg, hbe, hbc, hkey, htr, hv]

/-- Witness for C7 at two concrete states that differ in the identity and
in fields the projection ignores, but agree on all projection inputs. -/
theorem updateUIState_pure_witness :
    (updateUIState sConfirmed).ui.summarizeEnabled =
      (updateUIState { sConfirmed with
        userId := some "other",
        storage := { sConfirmed.storage with userId := none } }).ui.summarizeEnabled ∧
    (updateUIState sConfirmed).storage = sConfirmed.storage :=
  ⟨(updateUIState_pure sConfirmed
      { sConfirmed with
        userId := some "other",
        storage := { sConfirmed.storage with userId := none } }
      rfl rfl rfl rfl rfl rfl rfl).1.1,
   (updateUIState_pure sConfirmed sConfirmed
      rfl rfl rfl rfl rfl rfl rfl).2.1⟩

/-- C5: reconcile idempotence. With the remote responses stable across
both calls (one fixed `Env`), running the discovery-reconcile pass
`detectRealUser` a second time produces exactly the state of the first
run: the first call reaches a fixed point and the repeat is a no-op. -/
theorem detectRealUser_idempotent (env : Env) (s : PopupState) :
    detectRealUserS env (detectRealUserS env s) = detectRealUserS env s := by
  unfold detectRealUserS detectRealUser
  cases hc : env.completion with
  | netFailure => simp
  | httpError => simp
  | ok hasUsers latest =>
    cases latest with
    | none => simp
    | some C =>
      by_cases hg : (hasUsers && !(C == "")) = true
      · simp only [hg, if_true]
        cases hst : env.status C with
        | netFailure => simp [hst]
        | httpError => simp [hst]
        | ok b r a w =>
          cases b
          · simp [hst]
          · simp [hst, setNotionUserId]
      · simp [hg]

/-- An environment in which every status probe fails with a non-success
HTTP response. -/
def envHttpError : Env :=
  { status := fun _ => .httpError
    completion := .netFailure
    oauthBackground := none
    fingerprint := List.replicate 22 100 }

/-- An environment in which every status probe throws a network error. -/
def envNetFailure : Env :=
  { status := fun _ => .netFailure
    completion := .netFailure
    oauthBackground := none
    fingerprint := List.replicate 22 100 }

/-- C1 counterexample: starting from a confirmed identity, a
connection-check whose status query fails with a non-success HTTP response
clears the durably stored user id, replaces the in-memory id with a fresh
local placeholder, and drops the confirmed (`status connected`) state —
the failed query does change state and demotes `confirmed` from true to
false. -/
theorem failed_query_demotes_counterexample :
    (checkNotionConnection envHttpError sConfirmed).ui.statusClass = .disconnected ∧
    (checkNotionConnection envHttpError sConfirmed).storage.userId = none ∧
    (checkNotionConnection envHttpError sConfirmed).userId ≠ sConfirmed.userId ∧
    checkNotionConnection envHttpError sConfirmed ≠ sConfirmed := by
  refine ⟨by decide, by decide, by decide, ?_⟩
  intro h
  have := congrArg (fun t => t.storage.userId) h
  simp at this
  revert this
  decide

/-- C1 (amended): a failed remote status query does demote. On a
non-success HTTP status, `checkNotionConnection` performs a full local
reset (`forceDisconnectedState`): the stored user id is removed, a fresh
16-character placeholder id is generated, the status drops to
disconnected, and the stored credential is cleared. On a network error,
the stored user id and in-memory id survive, but the status still drops to
disconnected and the stored credential is still cleared. -/
theorem failed_query_demotes (env : Env) (s : PopupState) (u : String)
    (hu : s.userId = some u) (hne : u ≠ "") :
    (env.status u = .httpError →
      (checkNotionConnection env s).storage.userId = none ∧
      (checkNotionConnection env s).userId = some (genTempId env.fingerprint) ∧
      (checkNotionConnection env s).ui.statusClass = .disconnected ∧
      (checkNotionConnection env s).storage.openaiApiKey = none ∧
      (checkNotionConnection env s).storage.openaiKeyValid = false) ∧
    (env.status u = .netFailure →
      (checkNotionConnection env s).userId = some u ∧
      (checkNotionConnection env s).storage.userId = s.storage.userId ∧
      (checkNotionConnection env s).ui.statusClass = .disconnected ∧
      (checkNotionConnection env s).storage.openaiApiKey = none ∧
      (checkNotionConnection env s).storage.openaiKeyValid = false) := by
  have hne' : (u == "") = false := by simpa using hne
  constructor
  · intro h
    simp [checkNotionConnection, hu, hne', h]
  · intro h
    simp [checkNotionConnection, hu, hne', h]

/-- Witness for C1's amended statement on the concrete confirmed state and
the all-HTTP-error environment. -/
theorem failed_query_demotes_witness :
    (checkNotionConnection envHttpError sConfirmed).storage.userId = none ∧
    (checkNotionConnection envHttpError sConfirmed).userId =
      some (genTempId envHttpError.fingerprint) ∧
    (checkNotionConnection envHttpError sConfirmed).ui.statusClass = .disconnected ∧
    (checkNotionConnection envHttpError sConfirmed).storage.openaiApiKey = none ∧
    (checkNotionConnection envHttpError sConfirmed).storage.openaiKeyValid = false :=
  (failed_query_demotes envHttpError sConfirmed "R" rfl (by decide)).1 rfl

/-- An environment whose status endpoint answers `connected: false` with
no `reason` and no `action` for every id. -/
def envLinkedFalse : Env :=
  { status := fun _ => .ok false none none none
    completion := .netFailure
    oauthBackground := none
    fingerprint := [] }

/-- C2 counterexample: from `confirmed = true` with stored remote id
`"R"`, an explicit `connected: false` status answer (without an
`invalid_token` / `no_token` reason) does **not** reset the identity: the
stored user id remains `"R"` and the in-memory id is unchanged — no fresh
identity with a null remote id and regenerated local id is produced. -/
theorem revoke_convergence_counterexample :
    (checkNotionConnection envLinkedFalse sConfirmed).storage.userId = some "R" ∧
    (checkNotionConnection envLinkedFalse sConfirmed).userId = some "R" ∧
    (checkNotionConnection envLinkedFalse sConfirmed).ui.statusClass = .disconnected := by
  refine ⟨by decide, by decide, by decide⟩

/-- C2 (amended): for a confirmed identity with stored remote id, an
explicit `connected: false` status answer resets the identity — stored
user id removed, fresh regenerated local placeholder id, confirmed state
dropped — exactly when the answer carries reason `invalid_token` or
`no_token` (and no `clear_extension_storage` action); an answer with any
other (or no) reason keeps the stored id and the in-memory id and only
drops the confirmed state. -/
theorem revoke_convergence_on_reason (env : Env) (s : PopupState) (u : String)
    (reason : Option String) (w : Option String)
    (hu : s.userId = some u) (hne : u ≠ "")
    (hconf : s.ui.statusClass = .connected)
    (hstat : env.status u = .ok false reason none w) :
    ((reason = some "invalid_token" ∨ reason = some "no_token") →
      (checkNotionConnection env s).storage.userId = none ∧
      (checkNotionConnection env s).userId = some (genTempId env.fingerprint) ∧
      (checkNotionConnection env s).ui.statusClass = .disconnected ∧
      (checkNotionConnection env s).ui.wasConnected = false) ∧
    ((reason ≠ some "invalid_token" ∧ reason ≠ some "no_token") →
      (checkNotionConnection env s).storage.userId = s.storage.userId ∧
      (checkNotionConnection env s).userId = some u ∧
      (checkNotionConnection env s).ui.statusClass = .disconnected) := by
  have hne' : (u == "") = false := by simpa using hne
  constructor
  · rintro (hr | hr) <;>
      simp [checkNotionConnection, hu, hne', hstat, hr, generateUserId]
  · rintro ⟨hr1, hr2⟩
    have hr1' : (reason == some "invalid_token") = false := by simpa using hr1
    have hr2' : (reason == some "no_token") = false := by simpa using hr2
    simp [checkNotionConnection, hu, hne', hstat, hr1', hr2']

/-- An environment whose status endpoint answers `connected: false` with
reason `invalid_token` for every id. -/
def envInvalidToken : Env :=
  { status := fun _ => .ok false (some "invalid_token") none none
    completion := .netFailure
    oauthBackground := none
    fingerprint := List.replicate 22 100 }

/-- Witness for C2's amended statement: an explicit revoke carrying reason
`invalid_token` against the concrete confirmed state. -/
theorem revoke_convergence_witness :
    (checkNotionConnection envInvalidToken sConfirmed).storage.userId = none ∧
    (checkNotionConnection envInvalidToken sConfirmed).userId =
      some (genTempId envInvalidToken.fingerprint) ∧
    (checkNotionConnection envInvalidToken sConfirmed).ui.statusClass = .disconnected ∧
    (checkNotionConnection envInvalidToken sConfirmed).ui.wasConnected = false :=
  (revoke_convergence_on_reason envInvalidToken sConfirmed "R"
    (some "invalid_token") none rfl (by decide) rfl rfl).1 (Or.inl rfl)

/-- C3: discovery promotion. When the discovery endpoint reports a
(truthy) candidate `C` and the status query for `C` answers
`connected: true`, a reconciliation tick adopts `C`: it stops the polling
loop, persists `C` as the active user id both in memory and in durable
storage, and the subsequent connection check confirms the link (`status
connected`). -/
theorem discovery_promotion (env : Env) (s : PopupState) (C : String)
    (hnull : s.storage.userId = none)
    (hcomp : env.completion = .ok true (some C)) (hC : C ≠ "")
    (r a w : Option String) (hstat : env.status C = .ok true r a w) :
    (pollTick env s).1 = true ∧
    (pollTick env s).2.userId = some C ∧
    (pollTick env s).2.storage.userId = some C ∧
    (pollTick env s).2.ui.statusClass = .connected := by
  have hC' : (C == "") = false := by simpa using hC
  simp [pollTick, detectRealUser, hcomp, hC', hstat, checkNotionConnection,
    markConnectButton, setNotionUserId]

/-- The spec's concrete discovery scenario as an environment: discovery
reports candidate `"u-9"`, whose status is `connected: true` in workspace
`"Acme"`. -/
def envDiscovery : Env :=
  { status := fun _ => .ok true none none (some "Acme")
    completion := .ok true (some "u-9")
    oauthBackground := none
    fingerprint := [] }

/-- A disconnected popup state with local placeholder id `"abc"` and no
stored remote id. -/
def sUnlinked : PopupState :=
  { userId := some "abc"
    backendConnected := true
    storage := { userId := none, openaiApiKey := some "sk-test", openaiKeyValid := true }
    ui := { statusClass := .disconnected, wasConnected := false, summarizeEnabled := false,
            btnEnabled := true, btnConnected := false, btnConnecting := true,
            saveSettingsVisible := true } }

/-- Witness for C3 on the spec's concrete scenario. -/
theorem discovery_promotion_witness :
    (pollTick envDiscovery sUnlinked).1 = true ∧
    (pollTick envDiscovery sUnlinked).2.userId = some "u-9" ∧
    (pollTick envDiscovery sUnlinked).2.storage.userId = some "u-9" ∧
    (pollTick envDiscovery sUnlinked).2.ui.statusClass = .connected :=
  discovery_promotion envDiscovery sUnlinked "u-9" rfl rfl (by decide)
    none none (some "Acme") rfl

/-- Under an environment whose status endpoint never reports an
established link and whose background script has recorded no completed
OAuth, one polling tick neither stops the loop nor changes the popup
state. -/
theorem pollTick_never_connected (env : Env) (s : PopupState)
    (h1 : ∀ id, statusOkConnected (env.status id) = false)
    (h2 : env.oauthBackground = none) :
    pollTick env s = (false, s) := by
  have hdet : detectRealUser env s = (false, s) := by
    unfold detectRealUser
    cases hc : env.completion with
    | netFailure => rfl
    | httpError => rfl
    | ok hasUsers latest =>
      cases latest with
      | none => rfl
      | some C =>
        by_cases hg : (hasUsers && !(C == "")) = true
        · simp only [hg, if_true]
          have hC := h1 C
          cases hst : env.status C with
          | netFailure => rfl
          | httpError => rfl
          | ok b r a w =>
            cases b
            · rfl
            · rw [hst] at hC
              simp [statusOkConnected] at hC
        · simp [hg]
  unfold pollTick
  rw [hdet]
  simp only [checkOAuthCompletion, h2]
  cases hu : s.userId with
  | none => rfl
  | some u =>
    by_cases he : (u == "") = true
    · simp [he]
    · simp only [he, Bool.false_eq_true, if_false]
      have hC := h1 u
      cases hst : env.status u with
      | netFailure => simp
      | httpError => simp
      | ok b r a w =>
        cases b
        · simp
        · rw [hst] at hC
          simp [statusOkConnected] at hC

/-- The polling loop under a never-connected environment: from any attempt
count with `k` attempts remaining it runs exactly those `k` ticks, leaves
the popup state untouched and ends `timedOut` with the Connect button
reset. -/
theorem pollFrom_never_connected (env : Env)
    (h1 : ∀ id, statusOkConnected (env.status id) = false)
    (h2 : env.oauthBackground = none) (maxAttempts : Nat) :
    ∀ k a s, a + k = maxAttempts → 0 < k →
      pollFrom env maxAttempts s a = (.timedOut, resetConnectButton s, maxAttempts) := by
  intro k
  induction k with
  | zero =>
    intro a s _ hk
    omega
  | succ n ih =>
    intro a s hak _
    rw [pollFrom, pollTick_never_connected env s h1 h2]
    by_cases hge : a + 1 ≥ maxAttempts
    · have ha : a + 1 = maxAttempts := by omega
      simp [hge, ha]
    · simp only [hge, if_false]
      exact ih (a + 1) s (by omega) (by omega)

/-- C4: watcher termination. A polling session started with `maxAttempts
= n > 0` against an environment that never reports an established link
(and no background completion) ends `timedOut` after exactly `n` ticks —
neither fewer nor more. -/
theorem watcher_timeout_exact (env : Env) (s : PopupState) (n : Nat)
    (h1 : ∀ id, statusOkConnected (env.status id) = false)
    (h2 : env.oauthBackground = none) (hn : 0 < n) :
    startOAuthCompletionPolling env n s = (.timedOut, resetConnectButton s, n) := by
  unfold startOAuthCompletionPolling
  exact pollFrom_never_connected env h1 h2 n n 0 s (by omega) hn

/-- Witness for C4 with `maxAttempts = 3`: exactly 3 ticks, then timeout. -/
theorem watcher_timeout_exact_witness :
    startOAuthCompletionPolling envLinkedFalse 3 sUnlinked =
      (.timedOut, resetConnectButton sUnlinked, 3) :=
  watcher_timeout_exact envLinkedFalse sUnlinked 3 (fun _ => rfl) rfl (by decide)

/-- C8: session timeout frame property. When the polling session exhausts
its attempts without ever observing a confirmed link, the stored local
identity is left untouched — the durable user id, the in-memory user id,
the stored credential, the status (`confirmed`) class and the
`data-was-connected` attribute are all exactly as before; only the session
status and the Connect button change. -/
theorem watcher_timeout_frame (env : Env) (s : PopupState) (n : Nat)
    (h1 : ∀ id, statusOkConnected (env.status id) = false)
    (h2 : env.oauthBackground = none) (hn : 0 < n) :
    (startOAuthCompletionPolling env n s).1 = .timedOut ∧
    (startOAuthCompletionPolling env n s).2.1.storage = s.storage ∧
    (startOAuthCompletionPolling env n s).2.1.userId = s.userId ∧
    (startOAuthCompletionPolling env n s).2.1.ui.statusClass = s.ui.statusClass ∧
    (startOAuthCompletionPolling env n s).2.1.ui.wasConnected = s.ui.wasConnected := by
  have h := pollFrom_never_connected env h1 h2 n n 0 s (by omega) hn
  unfold startOAuthCompletionPolling
  rw [h]
  simp [resetConnectButton]

/-- Witness for C8 on a confirmed-looking stored identity surviving a
15-attempt timeout (part_003's `maxAttempts`). -/
theorem watcher_timeout_frame_witness :
    (startOAuthCompletionPolling envNetFailure 15 sConfirmed).1 = .timedOut ∧
    (startOAuthCompletionPolling envNetFailure 15 sConfirmed).2.1.storage =
      sConfirmed.storage ∧
    (startOAuthCompletionPolling envNetFailure 15 sConfirmed).2.1.userId =
      sConfirmed.userId ∧
    (startOAuthCompletionPolling envNetFailure 15 sConfirmed).2.1.ui.statusClass =
      sConfirmed.ui.statusClass ∧
    (startOAuthCompletionPolling envNetFailure 15 sConfirmed).2.1.ui.wasConnected =
      sConfirmed.ui.wasConnected :=
  watcher_timeout_frame envNetFailure sConfirmed 15 (fun _ => rfl) rfl (by decide)
